import Mathlib

/-!
Verification of the server-side swarm-membership engine of the
bigscience-workshop/bloom-demo repository (petals server), via a shallow
embedding of `src/petals/server/server.py` and
`src/petals/client/from_pretrained.py` into Lean 4.

Registry time and durations (floats in the source) are modelled as
rationals; the external collaborators (block loader, registry write
`declare_active_modules`, `block_selection`, hivemind runtime) are modelled
as opaque parameters or as trace events, matching the spec scope which
treats them as external interfaces.
-/

namespace Petals

/-- Server state from petals.data_structures, as used by server.py
(`ServerState.JOINING`, `ServerState.ONLINE`, `ServerState.OFFLINE`). -/
inductive ServerState where
  | joining
  | online
  | offline
deriving DecidableEq, Repr

/-- One call to `declare_active_modules(dht, module_uids, expiration_time,
state, throughput)`: a batch registry write covering the given uids. -/
structure DeclareModulesCall where
  uids : List String
  state : ServerState
  expirationTime : ℚ
  throughput : ℚ
deriving DecidableEq, Repr

/-- Module uid construction from server.py:
module_uids = [f"\x7bprefix\x7d.\x7bblock_index\x7d" for block_index in block_indices]. -/
def makeModuleUids (pfx : String) (blockIndices : List Nat) : List String :=
  blockIndices.map (fun i => pfx ++ "." ++ toString i)

/-- Announcer / registry actions performed by `ModuleContainer.create`,
in program order. -/
inductive CreateEvent where
  | joiningAnnouncerStart (uids : List String)
  | joiningAnnouncerStopAndJoin
  | declareModules (call : DeclareModulesCall)
deriving DecidableEq, Repr

/-- The loading loop of `ModuleContainer.create`: for each block index, run
the (fallible) external loader and register the result under the block uid;
the first raised exception aborts the loop and propagates. -/
def loadAllBlocks (loadBlock : Nat → Except ε β) (pfx : String) :
    List Nat → Except ε (List (String × β))
  | [] => Except.ok []
  | i :: rest =>
    match loadBlock i with
    | Except.error e => Except.error e
    | Except.ok b =>
      match loadAllBlocks loadBlock pfx rest with
      | Except.error e => Except.error e
      | Except.ok tail => Except.ok ((pfx ++ "." ++ toString i, b) :: tail)

/-- Result of `ModuleContainer.create`: the ordered trace of announcer and
registry actions, and either the loaded backend map (uid → backend, in
block order) or the re-raised loading exception. -/
structure CreateResult (ε β : Type) where
  events : List CreateEvent
  outcome : Except ε (List (String × β))
deriving Repr

/-- ModuleContainer.create from server.py: start a JOINING announcer, load
every block of the intended range; on any failure stop and join the JOINING
announcer, write one OFFLINE `declare_active_modules` record for the whole
intended uid range with expiration `get_dht_time() + expiration`, and
re-raise; on success stop and join the JOINING announcer and return the
loaded backends (no OFFLINE write). `now` is `get_dht_time()` at the
failure declare. -/
def ModuleContainer.create (pfx : String) (blockIndices : List Nat)
    (loadBlock : Nat → Except ε β) (now expiration throughput : ℚ) :
    CreateResult ε β :=
  let moduleUids := makeModuleUids pfx blockIndices
  match loadAllBlocks loadBlock pfx blockIndices with
  | Except.error e =>
    { events := [CreateEvent.joiningAnnouncerStart moduleUids,
                 CreateEvent.joiningAnnouncerStopAndJoin,
                 CreateEvent.declareModules
                   ⟨moduleUids, ServerState.offline, now + expiration, throughput⟩],
      outcome := Except.error e }
  | Except.ok blocks =>
    { events := [CreateEvent.joiningAnnouncerStart moduleUids,
                 CreateEvent.joiningAnnouncerStopAndJoin],
      outcome := Except.ok blocks }

/-- Predicate: the event is an OFFLINE registry write. -/
def CreateEvent.isOfflineDeclare : CreateEvent → Bool
  | CreateEvent.declareModules c => c.state = ServerState.offline
  | _ => false

/-- C1: on a loading failure, ModuleContainer.create stops and joins the
JOINING announcer, writes exactly one OFFLINE record covering every uid of
the intended range with expiration `now + expiration`, and re-raises the
original exception; on success it stops and joins the JOINING announcer and
writes no OFFLINE record. -/
theorem create_failure_offline_success_clean (pfx : String)
    (blockIndices : List Nat) (loadBlock : Nat → Except ε β)
    (now expiration throughput : ℚ) :
    (∀ e : ε, loadAllBlocks loadBlock pfx blockIndices = Except.error e →
      (ModuleContainer.create pfx blockIndices loadBlock now expiration throughput).events
        = [CreateEvent.joiningAnnouncerStart (makeModuleUids pfx blockIndices),
           CreateEvent.joiningAnnouncerStopAndJoin,
           CreateEvent.declareModules
             ⟨makeModuleUids pfx blockIndices, ServerState.offline,
              now + expiration, throughput⟩] ∧
      (ModuleContainer.create pfx blockIndices loadBlock now expiration throughput).outcome
        = Except.error e) ∧
    (∀ blocks, loadAllBlocks loadBlock pfx blockIndices = Except.ok blocks →
      (ModuleContainer.create pfx blockIndices loadBlock now expiration throughput).events
        = [CreateEvent.joiningAnnouncerStart (makeModuleUids pfx blockIndices),
           CreateEvent.joiningAnnouncerStopAndJoin] ∧
      (ModuleContainer.create pfx blockIndices loadBlock now expiration throughput).outcome
        = Except.ok blocks) := by
  constructor
  · intro e he
    simp [ModuleContainer.create, he]
  · intro blocks hb
    simp [ModuleContainer.create, hb]

/-- A loader for the end-to-end scenario of the spec: three blocks, block
index 2 fails to load. -/
def failAt2Loader : Nat → Except Unit Unit :=
  fun i => if i = 2 then Except.error () else Except.ok ()

/-- Witness for C1: the end-to-end scenario (failure at block 2 of range
[0,1,2]) produces OFFLINE for all three intended uids and re-raises; a
loader with no failures produces no OFFLINE write. -/
theorem create_failure_offline_success_clean_witness :
    ((ModuleContainer.create "bloom" [0, 1, 2] failAt2Loader 100 30 1).events
      = [CreateEvent.joiningAnnouncerStart ["bloom.0", "bloom.1", "bloom.2"],
         CreateEvent.joiningAnnouncerStopAndJoin,
         CreateEvent.declareModules
           ⟨["bloom.0", "bloom.1", "bloom.2"], ServerState.offline, 130, 1⟩] ∧
     (ModuleContainer.create "bloom" [0, 1, 2] failAt2Loader 100 30 1).outcome
      = Except.error ()) ∧
    ((ModuleContainer.create "bloom" [0, 1] failAt2Loader 100 30 1).events
      = [CreateEvent.joiningAnnouncerStart ["bloom.0", "bloom.1"],
         CreateEvent.joiningAnnouncerStopAndJoin] ∧
     (ModuleContainer.create "bloom" [0, 1] failAt2Loader 100 30 1).outcome
      = Except.ok [("bloom.0", ()), ("bloom.1", ())]) := by
  constructor
  · have h := (create_failure_offline_success_clean "bloom" [0, 1, 2]
      failAt2Loader 100 30 1).1 () rfl
    have hn : (100 : ℚ) + 30 = 130 := by norm_num
    simpa [makeModuleUids, hn] using h
  · have h := (create_failure_offline_success_clean "bloom" [0, 1]
      failAt2Loader 100 30 1).2 [("bloom.0", ()), ("bloom.1", ())] rfl
    simpa [makeModuleUids] using h

/-- The statements of `ModuleContainer.shutdown` in server.py, one per
top-level statement, in program order. The `checkpoint_saver` branch is
omitted: the constructor sets `self.checkpoint_saver = None` and never
reassigns it, so its guard is statically false. -/
inductive ShutdownStep where
  | announcerStopSet
  | announcerJoin
  | declareOffline
  | readyClear
  | handlersShutdown
  | poolsShutdown
  | runtimeShutdown
deriving DecidableEq, Repr, Fintype

/-- The program order of the statements of `ModuleContainer.shutdown`. -/
def shutdownSteps : List ShutdownStep :=
  [ShutdownStep.announcerStopSet, ShutdownStep.announcerJoin,
   ShutdownStep.declareOffline, ShutdownStep.readyClear,
   ShutdownStep.handlersShutdown, ShutdownStep.poolsShutdown,
   ShutdownStep.runtimeShutdown]

/-- Sequential statement execution as written in the source (no
try/except around any step): a step runs only if every earlier step
completed without raising; the first raising step aborts the rest and the
exception propagates. `failsAt s = true` injects a raise into step `s`.
Returns the list of steps that were entered, and whether an exception
propagated out of shutdown. -/
def runStepsSeq (failsAt : ShutdownStep → Bool) :
    List ShutdownStep → List ShutdownStep × Bool
  | [] => ([], false)
  | s :: rest =>
    if failsAt s then ([s], true)
    else
      let r := runStepsSeq failsAt rest
      (s :: r.1, r.2)

/-- ModuleContainer.shutdown from server.py: run the seven statements in
program order with no exception handling. -/
def ModuleContainer.shutdown (failsAt : ShutdownStep → Bool) :
    List ShutdownStep × Bool :=
  runStepsSeq failsAt shutdownSteps

theorem runStepsSeq_eq (failsAt : ShutdownStep → Bool)
    (l : List ShutdownStep) :
    runStepsSeq failsAt l
      = (l.takeWhile (fun s => !failsAt s)
          ++ (l.dropWhile (fun s => !failsAt s)).take 1,
         l.any failsAt) := by
  induction l with
  | nil => rfl
  | cons s rest ih =>
    by_cases hs : failsAt s = true
    · simp [runStepsSeq, hs, List.takeWhile_cons, List.dropWhile_cons]
    · simp only [Bool.not_eq_true] at hs
      simp [runStepsSeq, hs, List.takeWhile_cons, List.dropWhile_cons, ih]

/-- C2 counterexample: with a raise injected into the OFFLINE registry
write (`declare_active_modules`), the subsequent `ready.clear()` step does
not run — contrary to the claim that every later step still runs — and
the exception propagates out of shutdown. -/
theorem shutdown_failure_aborts_remaining_steps :
    ShutdownStep.readyClear ∉
      (ModuleContainer.shutdown
        (fun s => s == ShutdownStep.declareOffline)).1 ∧
    (ModuleContainer.shutdown
        (fun s => s == ShutdownStep.declareOffline)).2 = true := by
  exact ⟨by decide, by decide⟩

/-- C2 amended: shutdown executes its steps strictly in sequence with no
exception handling: the steps that run are exactly the program-order
prefix up to and including the first raising step (all of them when none
raises), a raise in any step prevents every later step from running, and
an exception propagates out of shutdown exactly when some step raises;
the function is deterministic in the injected faults, so a second call
with no failing step executes the same full sequence again. -/
theorem shutdown_sequential (failsAt : ShutdownStep → Bool) :
    ModuleContainer.shutdown failsAt
      = (shutdownSteps.takeWhile (fun s => !failsAt s)
          ++ (shutdownSteps.dropWhile (fun s => !failsAt s)).take 1,
         shutdownSteps.any failsAt) :=
  runStepsSeq_eq failsAt shutdownSteps

set_option maxRecDepth 8000 in
/-- C3: ModuleContainer.shutdown runs its statements in exactly the program
order: announcer stop flag set, announcer thread join, OFFLINE registry
write for all hosted uids, ready clear, handler shutdown, pool shutdown,
runtime shutdown; moreover in every execution (any fault pattern), if the
OFFLINE write runs at all, the announcer join has already completed before
it — the OFFLINE write never happens while the ONLINE announcer thread is
still running. -/
theorem shutdown_order_offline_after_join :
    (ModuleContainer.shutdown (fun _ => false)).1
      = [ShutdownStep.announcerStopSet, ShutdownStep.announcerJoin,
         ShutdownStep.declareOffline, ShutdownStep.readyClear,
         ShutdownStep.handlersShutdown, ShutdownStep.poolsShutdown,
         ShutdownStep.runtimeShutdown] ∧
    ∀ failsAt : ShutdownStep → Bool,
      ShutdownStep.declareOffline ∈ (ModuleContainer.shutdown failsAt).1 →
        (ModuleContainer.shutdown failsAt).1.indexOf
            ShutdownStep.announcerJoin
          < (ModuleContainer.shutdown failsAt).1.indexOf
            ShutdownStep.declareOffline := by
  exact ⟨by decide, by decide⟩

/-- Witness for C3 at the fault-free execution: OFFLINE is written there
and the join precedes it. -/
theorem shutdown_order_offline_after_join_witness :
    (ModuleContainer.shutdown (fun _ => false)).1.indexOf
        ShutdownStep.announcerJoin
      < (ModuleContainer.shutdown (fun _ => false)).1.indexOf
        ShutdownStep.declareOffline :=
  shutdown_order_offline_after_join.2 (fun _ => false) (by decide)

/-- One registry write (`declare_active_modules`) issued by a
ModuleAnnouncerThread loop iteration. -/
structure AnnouncerWrite where
  uids : List String
  state : ServerState
  expirationTime : ℚ
  throughput : ℚ
deriving DecidableEq, Repr

/-- ModuleAnnouncerThread.run from server.py, from loop iteration `i`:
each iteration writes one record for the constructed uids with the
constructed state and expiration `get_dht_time() + expiration`, then waits
on the stop flag for `update_period` seconds: if the flag is set the loop
breaks, otherwise the clock has advanced by `update_period` and the loop
repeats. The registry clock at iteration `i` is
`startTime + i * update_period`; `stopSet i` is the stop-flag value
observed at the i-th wait; `fuel` bounds the unrolling. -/
def ModuleAnnouncerThread.runFrom (uids : List String) (st : ServerState)
    (throughput updatePeriod expiration startTime : ℚ)
    (stopSet : Nat → Bool) : Nat → Nat → List AnnouncerWrite
  | 0, _ => []
  | fuel + 1, i =>
    ⟨uids, st, startTime + (i : ℚ) * updatePeriod + expiration, throughput⟩ ::
    (if stopSet i then []
     else ModuleAnnouncerThread.runFrom uids st throughput updatePeriod
            expiration startTime stopSet fuel (i + 1))

/-- ModuleAnnouncerThread.run, started at iteration 0. -/
def ModuleAnnouncerThread.run (uids : List String) (st : ServerState)
    (throughput updatePeriod expiration startTime : ℚ)
    (stopSet : Nat → Bool) (fuel : Nat) : List AnnouncerWrite :=
  ModuleAnnouncerThread.runFrom uids st throughput updatePeriod expiration
    startTime stopSet fuel 0

/-- Number of loop iterations (= writes) the announcer performs. -/
def announcerNumWrites (stopSet : Nat → Bool) : Nat → Nat → Nat
  | 0, _ => 0
  | fuel + 1, i => 1 + (if stopSet i then 0 else announcerNumWrites stopSet fuel (i + 1))

theorem announcer_runFrom_eq (uids : List String) (st : ServerState)
    (throughput updatePeriod expiration startTime : ℚ)
    (stopSet : Nat → Bool) (fuel i : Nat) :
    ModuleAnnouncerThread.runFrom uids st throughput updatePeriod expiration
        startTime stopSet fuel i
      = (List.range (announcerNumWrites stopSet fuel i)).map (fun j =>
          ⟨uids, st, startTime + ((i + j : Nat) : ℚ) * updatePeriod + expiration,
           throughput⟩) := by
  induction fuel generalizing i with
  | zero => rfl
  | succ fuel ih =>
    by_cases hs : stopSet i = true
    · simp only [ModuleAnnouncerThread.runFrom, announcerNumWrites, hs,
        if_true]
      norm_num [List.range_succ]
    · simp only [Bool.not_eq_true] at hs
      rw [ModuleAnnouncerThread.runFrom]
      rw [announcerNumWrites]
      simp only [hs, if_false, Bool.false_eq_true, ih (i + 1)]
      rw [Nat.add_comm 1 (announcerNumWrites stopSet fuel (i + 1)),
        List.range_succ_eq_map]
      simp only [List.map_cons, List.map_map, List.cons.injEq]
      refine ⟨by norm_num, ?_⟩
      apply List.map_congr_left
      intro j _
      simp only [Function.comp_apply]
      have hnat : i + 1 + j = i + Nat.succ j := by omega
      rw [hnat]

theorem announcerNumWrites_no_stop (stopSet : Nat → Bool)
    (h : ∀ i, stopSet i = false) (fuel : Nat) :
    ∀ i, announcerNumWrites stopSet fuel i = fuel := by
  induction fuel with
  | zero => intro i; rfl
  | succ fuel ih =>
    intro i
    rw [announcerNumWrites]
    simp [h i, ih (i + 1)]
    omega

theorem announcerNumWrites_first_stop (stopSet : Nat → Bool) (k : Nat)
    (hk : stopSet k = true) (hmin : ∀ i, i < k → stopSet i = false) :
    ∀ fuel i, i ≤ k → k - i < fuel →
      announcerNumWrites stopSet fuel i = k - i + 1 := by
  intro fuel
  induction fuel with
  | zero => intro i _ h; omega
  | succ fuel ih =>
    intro i hik hfuel
    rcases Nat.eq_or_lt_of_le hik with heq | hlt
    · subst heq
      rw [announcerNumWrites]
      simp [hk]
    · rw [announcerNumWrites]
      have hi : stopSet i = false := hmin i hlt
      have h1 : i + 1 ≤ k := hlt
      have h2 : k - (i + 1) < fuel := by omega
      simp [hi, ih (i + 1) h1 h2]
      omega

/-- C4: the j-th record written by a ModuleAnnouncerThread carries exactly
the uids, state and throughput the thread was constructed with (never any
other state) and expiration_time equal to the registry time of that write
(start time plus j periods) plus the configured expiration; the writes
repeat once per update_period until the stop flag is set: if the flag is
never observed set the loop writes once per iteration of fuel, and if it
is first observed set at the k-th wait (k < fuel) exactly k + 1 writes
happen. -/
theorem announcer_writes_constructed_state_fresh_expiry
    (uids : List String) (st : ServerState)
    (throughput updatePeriod expiration startTime : ℚ)
    (stopSet : Nat → Bool) (fuel : Nat) :
    (∀ j (hj : j < (ModuleAnnouncerThread.run uids st throughput updatePeriod
        expiration startTime stopSet fuel).length),
      (ModuleAnnouncerThread.run uids st throughput updatePeriod expiration
          startTime stopSet fuel).get ⟨j, hj⟩
        = ⟨uids, st, (startTime + (j : ℚ) * updatePeriod) + expiration,
           throughput⟩) ∧
    ((∀ i, stopSet i = false) →
      (ModuleAnnouncerThread.run uids st throughput updatePeriod expiration
          startTime stopSet fuel).length = fuel) ∧
    (∀ k, k < fuel → stopSet k = true → (∀ i, i < k → stopSet i = false) →
      (ModuleAnnouncerThread.run uids st throughput updatePeriod expiration
          startTime stopSet fuel).length = k + 1) := by
  have hrun := announcer_runFrom_eq uids st throughput updatePeriod
    expiration startTime stopSet fuel 0
  refine ⟨?_, ?_, ?_⟩
  · intro j hj
    show (ModuleAnnouncerThread.runFrom uids st throughput updatePeriod
        expiration startTime stopSet fuel 0).get ⟨j, hj⟩
      = (⟨uids, st, (startTime + (j : ℚ) * updatePeriod) + expiration,
          throughput⟩ : AnnouncerWrite)
    rw [List.get_of_eq hrun]
    simp only [List.get_eq_getElem, List.getElem_map, List.getElem_range,
      Fin.coe_cast]
    norm_num
  · intro hnone
    simp only [ModuleAnnouncerThread.run, hrun]
    simp [announcerNumWrites_no_stop stopSet hnone fuel 0]
  · intro k hk hsk hmin
    simp only [ModuleAnnouncerThread.run, hrun]
    have := announcerNumWrites_first_stop stopSet k hsk hmin fuel 0
      (Nat.zero_le k) (by omega)
    simp [this]

/-- Witness for C4: announcer constructed with ONLINE, update_period 30,
expiration 60, start time 1000, stop flag first set at the 2nd wait: it
makes exactly 3 writes and the write at index 1 is the ONLINE record with
expiry 1000 + 30 + 60. -/
theorem announcer_writes_constructed_state_fresh_expiry_witness :
    (ModuleAnnouncerThread.run ["m.0"] ServerState.online 1 30 60 1000
        (fun i => decide (2 ≤ i)) 10).length = 3 ∧
    ∀ hj : 1 < (ModuleAnnouncerThread.run ["m.0"] ServerState.online 1 30 60
        1000 (fun i => decide (2 ≤ i)) 10).length,
      (ModuleAnnouncerThread.run ["m.0"] ServerState.online 1 30 60 1000
          (fun i => decide (2 ≤ i)) 10).get ⟨1, hj⟩
        = ⟨["m.0"], ServerState.online, 1090, 1⟩ := by
  have h := announcer_writes_constructed_state_fresh_expiry ["m.0"]
    ServerState.online 1 30 60 1000 (fun i => decide (2 ≤ i)) 10
  constructor
  · exact h.2.2 2 (by decide) (by decide)
      (fun i hi => decide_eq_false (by omega))
  · intro hj
    have := h.1 1 hj
    rw [this]
    norm_num

/-- Outcome of `Server._should_choose_other_blocks`: the returned Boolean
and whether the registry snapshot (`get_remote_module_infos`) was
queried. -/
structure RehostDecision where
  result : Bool
  registryQueried : Bool
deriving DecidableEq, Repr

/-- Server._should_choose_other_blocks from server.py: with a pinned
explicit range (`strict_block_indices` set) return False immediately;
otherwise query the registry snapshot and delegate to the external
`block_selection.should_choose_other_blocks(peer_id, module_infos,
balance_quality)`. `σ` is the opaque snapshot type and `π` the opaque peer
id type of the external collaborators. -/
def Server.shouldChooseOtherBlocks {σ π : Type}
    (strictBlockIndices : Option (List Nat)) (peerId : π)
    (getRemoteModuleInfos : Unit → σ)
    (shouldChooseOther : π → σ → ℚ → Bool)
    (balanceQuality : ℚ) : RehostDecision :=
  match strictBlockIndices with
  | some _ => ⟨false, false⟩
  | none =>
    ⟨shouldChooseOther peerId (getRemoteModuleInfos ()) balanceQuality, true⟩

/-- C5: for every swarm snapshot and every rebalance policy, a server
constructed with a pinned explicit block range answers the rehost check
with False and never queries the registry snapshot. -/
theorem shouldChooseOtherBlocks_pinned_false {σ π : Type}
    (strictBlockIndices : Option (List Nat)) (peerId : π)
    (getRemoteModuleInfos : Unit → σ)
    (shouldChooseOther : π → σ → ℚ → Bool) (balanceQuality : ℚ)
    (r : List Nat) (h : strictBlockIndices = some r) :
    Server.shouldChooseOtherBlocks strictBlockIndices peerId
        getRemoteModuleInfos shouldChooseOther balanceQuality
      = ⟨false, false⟩ := by
  subst h
  rfl

/-- Witness for C5: a concrete pinned server (range [0,1]) with a policy
that would answer True on any consulted snapshot still answers False
without querying. -/
theorem shouldChooseOtherBlocks_pinned_false_witness :
    Server.shouldChooseOtherBlocks (σ := Unit) (π := Unit) (some [0, 1]) ()
        (fun _ => ()) (fun _ _ _ => true) (3 / 4)
      = ⟨false, false⟩ :=
  shouldChooseOtherBlocks_pinned_false (some [0, 1]) () (fun _ => ())
    (fun _ _ _ => true) (3 / 4) [0, 1] rfl

/-- Side effects of `Server._choose_blocks` beyond returning a range. -/
inductive ChooseBlocksEffect where
  | jitterSleep (duration : ℚ)
  | registryQuery
  | blockSelection
deriving DecidableEq, Repr

/-- Server._choose_blocks from server.py: with a pinned range return it
unchanged and at once; otherwise (asserting `num_blocks` is set) sleep a
jitter of `random.random() * 2 * mean_block_selection_delay`, query the
registry snapshot, and delegate to the external
`block_selection.choose_best_blocks`. `none` is the failed assertion. The
effect list records, in order, the side effects performed. -/
def Server.chooseBlocks {σ : Type}
    (strictBlockIndices : Option (List Nat)) (numBlocks : Option Nat)
    (randDraw meanBlockSelectionDelay : ℚ)
    (getRemoteModuleInfos : Unit → σ)
    (chooseBestBlocks : Nat → σ → List Nat) :
    Option (List Nat × List ChooseBlocksEffect) :=
  match strictBlockIndices with
  | some r => some (r, [])
  | none =>
    match numBlocks with
    | none => none
    | some n =>
      some (chooseBestBlocks n (getRemoteModuleInfos ()),
        [ChooseBlocksEffect.jitterSleep
           (randDraw * 2 * meanBlockSelectionDelay),
         ChooseBlocksEffect.registryQuery,
         ChooseBlocksEffect.blockSelection])

/-- C6: a server constructed with a pinned explicit block range gets that
exact range back from _choose_blocks, with no jitter sleep, no registry
snapshot query and no block-selection call. -/
theorem chooseBlocks_pinned_identity {σ : Type}
    (strictBlockIndices : Option (List Nat)) (numBlocks : Option Nat)
    (randDraw meanBlockSelectionDelay : ℚ)
    (getRemoteModuleInfos : Unit → σ)
    (chooseBestBlocks : Nat → σ → List Nat)
    (r : List Nat) (h : strictBlockIndices = some r) :
    Server.chooseBlocks strictBlockIndices numBlocks randDraw
        meanBlockSelectionDelay getRemoteModuleInfos chooseBestBlocks
      = some (r, []) := by
  subst h
  rfl

/-- Witness for C6: a concrete pinned range [3,4,5] is returned unchanged
with an empty effect trace. -/
theorem chooseBlocks_pinned_identity_witness :
    Server.chooseBlocks (σ := Unit) (some [3, 4, 5]) none (1 / 2) (1 / 2)
        (fun _ => ()) (fun _ _ => [])
      = some ([3, 4, 5], []) :=
  chooseBlocks_pinned_identity (some [3, 4, 5]) none (1 / 2) (1 / 2)
    (fun _ => ()) (fun _ _ => []) [3, 4, 5] rfl

/-- The randomized wait between consecutive rebalance checks in
Server.run: `timeout = random.random() * 2 * self.mean_balance_check_period`,
where the random draw lies in [0, 1). -/
def balanceCheckTimeout (randDraw meanBalanceCheckPeriod : ℚ) : ℚ :=
  randDraw * 2 * meanBalanceCheckPeriod

/-- C7 counterexample: the draw 3/4 (a legitimate value of
random.random()) with mean_balance_check_period = 60 gives a wait of 90
seconds, which exceeds mean_balance_check_period — the wait is not bounded
above by the mean. -/
theorem balanceCheckTimeout_exceeds_mean :
    (0 ≤ (3 / 4 : ℚ) ∧ (3 / 4 : ℚ) < 1) ∧
    balanceCheckTimeout (3 / 4) 60 = 90 ∧
    ¬ balanceCheckTimeout (3 / 4) 60 ≤ 60 := by
  refine ⟨⟨by norm_num, by norm_num⟩, ?_, ?_⟩
  · norm_num [balanceCheckTimeout]
  · norm_num [balanceCheckTimeout]

/-- C7 amended: the randomized wait between consecutive rebalance checks
is bounded above by twice mean_balance_check_period (strictly, for any
positive mean): the draw is uniform in [0, 1), so the wait lies in
[0, 2 * mean_balance_check_period). -/
theorem balanceCheckTimeout_lt_twice_mean (randDraw mean : ℚ)
    (h0 : 0 ≤ randDraw) (h1 : randDraw < 1) (hm : 0 < mean) :
    0 ≤ balanceCheckTimeout randDraw mean ∧
    balanceCheckTimeout randDraw mean < 2 * mean := by
  constructor
  · have : (0 : ℚ) ≤ randDraw * 2 := by linarith
    exact mul_nonneg this (le_of_lt hm)
  · have h2 : (0 : ℚ) < 2 * mean := by linarith
    calc balanceCheckTimeout randDraw mean = randDraw * (2 * mean) := by
          rw [balanceCheckTimeout]; ring
      _ < 1 * (2 * mean) := by
          exact mul_lt_mul_of_pos_right h1 h2
      _ = 2 * mean := by ring

/-- Witness for C7 amended: at draw 3/4 and mean 60 the wait is 90, inside
[0, 120). -/
theorem balanceCheckTimeout_lt_twice_mean_witness :
    0 ≤ balanceCheckTimeout (3 / 4) 60 ∧
    balanceCheckTimeout (3 / 4) 60 < 2 * 60 :=
  balanceCheckTimeout_lt_twice_mean (3 / 4) 60 (by norm_num) (by norm_num)
    (by norm_num)

/-- Expiration resolution in Server.__init__: `if expiration is None:
expiration = max(2 * update_period, MAX_DHT_TIME_DISCREPANCY_SECONDS)`.
MAX_DHT_TIME_DISCREPANCY_SECONDS is an external hivemind constant, passed
here as `maxTimeDiscrepancy`. -/
def Server.resolveExpiration (expiration : Option ℚ)
    (updatePeriod maxTimeDiscrepancy : ℚ) : ℚ :=
  match expiration with
  | none => max (2 * updatePeriod) maxTimeDiscrepancy
  | some e => e

/-- C8: an unset expiration defaults to max(2 * update_period,
MAX_DHT_TIME_DISCREPANCY_SECONDS); an operator-supplied expiration is kept
unchanged. -/
theorem resolveExpiration_default_passthrough
    (updatePeriod maxTimeDiscrepancy : ℚ) :
    Server.resolveExpiration none updatePeriod maxTimeDiscrepancy
      = max (2 * updatePeriod) maxTimeDiscrepancy ∧
    ∀ e : ℚ, Server.resolveExpiration (some e) updatePeriod
        maxTimeDiscrepancy = e :=
  ⟨rfl, fun _ => rfl⟩

/-- The block-arguments assertion at Server.__init__:
`assert (block_indices is None) != (num_blocks is None)`; the assertion
raises with the given message when the condition is false. -/
def Server.checkBlockArgs (blockIndices : Option String)
    (numBlocks : Option Nat) : Except String Unit :=
  if blockIndices.isNone != numBlocks.isNone then Except.ok ()
  else Except.error "please specify num_blocks or block_indices, not both"

/-- C9: the construction-time check passes precisely when exactly one of
block_indices and num_blocks is provided, and raises precisely when both
or neither are provided. -/
theorem checkBlockArgs_xor (blockIndices : Option String)
    (numBlocks : Option Nat) :
    (Server.checkBlockArgs blockIndices numBlocks = Except.ok () ↔
      ((∃ s, blockIndices = some s) ∧ numBlocks = none) ∨
      (blockIndices = none ∧ ∃ n, numBlocks = some n)) ∧
    ((∃ msg, Server.checkBlockArgs blockIndices numBlocks
        = Except.error msg) ↔
      (blockIndices = none ∧ numBlocks = none) ∨
      ((∃ s, blockIndices = some s) ∧ ∃ n, numBlocks = some n)) := by
  cases blockIndices <;> cases numBlocks <;>
    simp [Server.checkBlockArgs]

/-- The thread-local `_shard_config` of from_pretrained.py: the
`ignored_keys` slot manipulated by `ignore_keys`, and the rest of the
thread-local state, which `ignore_keys` never touches. -/
structure ShardConfig (α : Type) where
  ignoredKeys : Option (List String)
  rest : α
deriving Repr

/-- The ignore_keys context manager from from_pretrained.py: save the
previous `_shard_config.ignored_keys`, set it to `patterns`, run the body
(which sees and may mutate the thread-local state and may raise — the
`Except` result), and in the `finally` clause restore `ignored_keys` to
the saved value whether or not the body raised. -/
def ignoreKeys {α ε γ : Type} (patterns : List String)
    (body : ShardConfig α → Except ε γ × ShardConfig α)
    (s : ShardConfig α) : Except ε γ × ShardConfig α :=
  let prevPatterns := s.ignoredKeys
  let bodyRun := body { s with ignoredKeys := some patterns }
  (bodyRun.1, { bodyRun.2 with ignoredKeys := prevPatterns })

/-- C10: entering ignore_keys runs the body against a thread-local state
whose ignored-keys slot is exactly the given patterns (everything else
untouched); on exit — whether the body returned normally or raised — the
ignored-keys slot is restored to exactly its value before entry, the
body's outcome is passed through unchanged, and no other thread-local
state is changed by the context manager itself. -/
theorem ignoreKeys_scoped_set_restore {α ε γ : Type}
    (patterns : List String)
    (body : ShardConfig α → Except ε γ × ShardConfig α)
    (s : ShardConfig α) :
    ignoreKeys patterns body s
      = ((body ⟨some patterns, s.rest⟩).1,
         ⟨s.ignoredKeys, (body ⟨some patterns, s.rest⟩).2.rest⟩) ∧
    (ignoreKeys patterns body s).2.ignoredKeys = s.ignoredKeys :=
  ⟨rfl, rfl⟩

end Petals
